import Mathlib

/-!
# PipelineGuardian — verification of the inspection/remediation engine

A shallow embedding of the core of the PipelineGuardian asset-inspection
plugin: the severity/result model (`FAssetAnalysisResult.h`), the profile
store (`FPipelineGuardianProfile.h/.cpp`), its JSON export/import, the
scanner dispatch (`FAssetScanner.cpp`), the static-mesh analyzer loop, the
UV-overlap rule (`FStaticMeshUVOverlappingRule.cpp`), the LOD
poly-reduction rule and its fix-all repair
(`FStaticMeshLODPolyReductionRule.cpp`), and the cancellable evaluation
loop of the window (`SPipelineGuardianWindow.cpp`).

Machine floats of the source are modelled as rationals; host (engine)
subroutines that the code calls but does not implement — `FCString::Atof`,
the mesh rebuild, the user's cancel flag — are parameters of the embedded
functions.
-/

namespace PipelineGuardian

/-- `EAssetIssueSeverity` from `FAssetAnalysisResult.h`. The declaration
order fixes the underlying `uint8` values: Critical = 0, Error = 1,
Warning = 2, Info = 3. -/
inductive EAssetIssueSeverity where
  | critical
  | error
  | warning
  | info
  deriving DecidableEq, Repr

/-- The underlying `uint8` value of a severity, per declaration order. -/
def sevValue : EAssetIssueSeverity → Nat
  | .critical => 0
  | .error => 1
  | .warning => 2
  | .info => 3

/-- C++ `operator>` on the scoped enum: comparison of the underlying values. -/
def sevGT (a b : EAssetIssueSeverity) : Bool := sevValue b < sevValue a

/-! ## Association-list helpers (TMap / FJsonObject field semantics)

`TMap::Add` and `FJsonObject::Set*Field` overwrite the value of an existing
key and otherwise append; keys are unique. -/

/-- Overwrite-or-append on an association list: the semantics of
`TMap<FString, V>::Add` and of `FJsonObject::Set*Field`. -/
def alistSet {β : Type} (m : List (String × β)) (k : String) (v : β) :
    List (String × β) :=
  if m.any (fun kv => kv.1 = k) then
    m.map (fun kv => if kv.1 = k then (k, v) else kv)
  else
    m ++ [(k, v)]

/-- Key lookup on an association list (`TMap::Find` / `FJsonObject::TryGetField`). -/
def alistFind? {β : Type} (m : List (String × β)) (k : String) : Option β :=
  (m.find? (fun kv => kv.1 = k)).map (fun kv => kv.2)

/-- `TMap::Contains`. -/
def alistContains {β : Type} (m : List (String × β)) (k : String) : Bool :=
  m.any (fun kv => kv.1 = k)

/-- A sequence of `TMap::Add` calls, in source order. -/
def alistSetAll {β : Type} (m : List (String × β)) (kvs : List (String × β)) :
    List (String × β) :=
  kvs.foldl (fun acc kv => alistSet acc kv.1 kv.2) m

/-! ## Profile store (`FPipelineGuardianProfile.h`, part of the profile
translation unit) -/

/-- `FPipelineGuardianRuleConfig`: RuleID (an `FName`, modelled as its
string), enabled flag, untyped string parameter map. -/
structure FPipelineGuardianRuleConfig where
  ruleID : String
  bEnabled : Bool
  parameters : List (String × String)
  deriving DecidableEq, Repr

/-- The default-constructed rule config: `RuleID(NAME_None), bEnabled(true)`. -/
def defaultRuleConfig : FPipelineGuardianRuleConfig :=
  { ruleID := "", bEnabled := true, parameters := [] }

/-- `UPipelineGuardianProfile`: name, description, version, and the
RuleConfig array. -/
structure UPipelineGuardianProfile where
  profileName : String
  profileDescr : String
  version : Int
  ruleConfigs : List FPipelineGuardianRuleConfig
  deriving DecidableEq, Repr

/-- `UPipelineGuardianProfile::GetRuleConfigPtr`: first config whose RuleID
matches (`TArray::FindByPredicate`). -/
def getRuleConfigPtr (p : UPipelineGuardianProfile) (rid : String) :
    Option FPipelineGuardianRuleConfig :=
  p.ruleConfigs.find? (fun c => c.ruleID = rid)

/-- `UPipelineGuardianProfile::GetRuleConfig`: the found config, or the
default-constructed config when the RuleID is absent. -/
def getRuleConfig (p : UPipelineGuardianProfile) (rid : String) :
    FPipelineGuardianRuleConfig :=
  (getRuleConfigPtr p rid).getD defaultRuleConfig

/-- Replace the first config with a matching RuleID (the write through the
pointer `FindByPredicate` returned). -/
def replaceFirstByRuleID :
    List FPipelineGuardianRuleConfig → FPipelineGuardianRuleConfig →
    List FPipelineGuardianRuleConfig
  | [], _ => []
  | c :: rest, rc =>
    if c.ruleID = rc.ruleID then rc :: rest
    else c :: replaceFirstByRuleID rest rc

/-- `UPipelineGuardianProfile::SetRuleConfig`: upsert by RuleID — overwrite
the first existing config with that RuleID, else append. -/
def setRuleConfig (p : UPipelineGuardianProfile)
    (rc : FPipelineGuardianRuleConfig) : UPipelineGuardianProfile :=
  if p.ruleConfigs.any (fun c => c.ruleID = rc.ruleID) then
    { p with ruleConfigs := replaceFirstByRuleID p.ruleConfigs rc }
  else
    { p with ruleConfigs := p.ruleConfigs ++ [rc] }

/-- `UPipelineGuardianProfile::IsRuleEnabled`:
`Config ? Config->bEnabled : false`. -/
def isRuleEnabled (p : UPipelineGuardianProfile) (rid : String) : Bool :=
  match getRuleConfigPtr p rid with
  | some c => c.bEnabled
  | none => false

/-- `UPipelineGuardianProfile::GetRuleParameter`: the parameter's value when
the rule config exists and holds the key, else the given default. -/
def getRuleParameter (p : UPipelineGuardianProfile) (rid : String)
    (key dflt : String) : String :=
  match getRuleConfigPtr p rid with
  | some c =>
    match alistFind? c.parameters key with
    | some v => v
    | none => dflt
  | none => dflt

/-- `UPipelineGuardianProfile::InitializeDefaultRules`: the five seeded
configs, upserted in source order with their parameter maps. -/
def initDefaultRules (p : UPipelineGuardianProfile) : UPipelineGuardianProfile :=
  let p := setRuleConfig p
    { ruleID := "SM_Naming", bEnabled := true,
      parameters := alistSetAll [] [("NamingPattern", "SM_*")] }
  let p := setRuleConfig p
    { ruleID := "SM_LODMissing", bEnabled := true, parameters := [] }
  let p := setRuleConfig p
    { ruleID := "SM_LODPolyReduction", bEnabled := true,
      parameters := alistSetAll []
        [("MinReductionPercentage", "30.0"),
         ("WarningThreshold", "20.0"),
         ("ErrorThreshold", "10.0")] }
  let p := setRuleConfig p
    { ruleID := "SM_UVOverlapping", bEnabled := true,
      parameters := alistSetAll []
        [("Severity", "Warning"),
         ("CheckUVChannel0", "true"),
         ("CheckUVChannel1", "true"),
         ("CheckUVChannel2", "false"),
         ("CheckUVChannel3", "false"),
         ("TextureUVTolerance", "0.001"),
         ("LightmapUVTolerance", "0.0005"),
         ("TextureWarningThreshold", "5.0"),
         ("TextureErrorThreshold", "15.0"),
         ("LightmapWarningThreshold", "2.0"),
         ("LightmapErrorThreshold", "8.0"),
         ("AllowAutoFix", "true")] }
  setRuleConfig p
    { ruleID := "SM_TriangleCount", bEnabled := true,
      parameters := alistSetAll []
        [("Severity", "Warning"),
         ("WarningThreshold", "50000"),
         ("ErrorThreshold", "100000"),
         ("AllowAutoFix", "true"),
         ("PerformanceLODReductionTarget", "60.0")] }

/-- The profile the `UPipelineGuardianProfile` constructor builds: metadata
fields, empty RuleConfigs, then `InitializeDefaultRules`. -/
def defaultProfile : UPipelineGuardianProfile :=
  initDefaultRules
    { profileName := "Default Profile",
      profileDescr := "Default Pipeline Guardian profile",
      version := 1, ruleConfigs := [] }

/-! ## JSON document model (`FJsonObject` / `FJsonValue` trees)

The string (de)serializer `TJsonWriter`/`TJsonReader` is host code; the
embedding works on the document tree the repository's code builds and
consumes. -/

/-- A JSON value as `FJsonValue`: string, bool, number (the profile only
stores the integer `Version`), object, array. -/
inductive JVal where
  | jstr (s : String)
  | jbool (b : Bool)
  | jnum (n : Int)
  | jobj (fields : List (String × JVal))
  | jarr (elems : List JVal)

/-- Field lookup on a JSON object. -/
def jlookup (fields : List (String × JVal)) (k : String) : Option JVal :=
  alistFind? fields k

/-- One element of the exported `Rules` array
(`UPipelineGuardianProfile::ExportToJSON`, per-rule object): `RuleID`,
`Enabled`, and a `Parameters` object built by `SetStringField` per entry. -/
def exportRuleToJSON (rc : FPipelineGuardianRuleConfig) : JVal :=
  let paramsObj :=
    rc.parameters.foldl (fun acc kv => alistSet acc kv.1 (JVal.jstr kv.2)) []
  JVal.jobj
    (alistSet
      (alistSet
        (alistSet [] "RuleID" (JVal.jstr rc.ruleID))
        "Enabled" (JVal.jbool rc.bEnabled))
      "Parameters" (JVal.jobj paramsObj))

/-- `UPipelineGuardianProfile::ExportToJSON`: the root object with
`ProfileName`, `Description`, `Version` and the `Rules` array. -/
def exportToJSON (p : UPipelineGuardianProfile) : JVal :=
  JVal.jobj
    (alistSet
      (alistSet
        (alistSet
          (alistSet [] "ProfileName" (JVal.jstr p.profileName))
          "Description" (JVal.jstr p.profileDescr))
        "Version" (JVal.jnum p.version))
      "Rules" (JVal.jarr (p.ruleConfigs.map exportRuleToJSON)))

/-- One entry of the imported `Rules` array
(`UPipelineGuardianProfile::ImportFromJSON`, loop body): a non-object entry
is skipped; `TryGetStringField`/`TryGetBoolField` leave the
default-constructed config's fields on failure; only string-valued
parameters are taken (`TryGetString`). -/
def importRuleFromJSON (v : JVal) : Option FPipelineGuardianRuleConfig :=
  match v with
  | .jobj rfields =>
    let rc := defaultRuleConfig
    let rc :=
      match jlookup rfields "RuleID" with
      | some (.jstr s) => { rc with ruleID := s }
      | _ => rc
    let rc :=
      match jlookup rfields "Enabled" with
      | some (.jbool b) => { rc with bEnabled := b }
      | _ => rc
    let rc :=
      match jlookup rfields "Parameters" with
      | some (.jobj pf) =>
        let ps := pf.foldl
          (fun acc kv =>
            match kv.2 with
            | .jstr s => alistSet acc kv.1 s
            | _ => acc)
          rc.parameters
        { rc with parameters := ps }
      | _ => rc
    some rc
  | _ => none

/-- `UPipelineGuardianProfile::ImportFromJSON` on the parsed document tree:
a non-object root fails (deserialize failure path); metadata fields are
taken when present (the `HasField`-but-wrong-type branch of
`GetStringField`/`GetIntegerField` is the host's coercion, modelled with
the coerced-empty value — no theorem below exercises it); the RuleConfig
array is emptied and rebuilt from the `Rules` array. Returns the success
flag and the mutated profile. -/
def importFromJSON (p : UPipelineGuardianProfile) (root : JVal) :
    Bool × UPipelineGuardianProfile :=
  match root with
  | .jobj fields =>
    let name :=
      match jlookup fields "ProfileName" with
      | some (.jstr s) => s
      | some _ => ""
      | none => p.profileName
    let descr :=
      match jlookup fields "Description" with
      | some (.jstr s) => s
      | some _ => ""
      | none => p.profileDescr
    let ver :=
      match jlookup fields "Version" with
      | some (.jnum n) => n
      | some _ => 0
      | none => p.version
    let configs :=
      match jlookup fields "Rules" with
      | some (.jarr elems) =>
        elems.foldl
          (fun acc e =>
            match importRuleFromJSON e with
            | some rc => acc ++ [rc]
            | none => acc)
          []
      | _ => []
    (true,
     { profileName := name, profileDescr := descr, version := ver,
       ruleConfigs := configs })
  | _ => (false, p)

/-! ## Result model and dispatch (`FAssetScanner.cpp`, `FStaticMeshAnalyzer`) -/

/-- The description text of a result, kept structured: which format string
of the source produced it and with which arguments. -/
inductive LODIssueText where
  /-- `"INCREASE of %.1f%%"` — the negative-reduction branch, reported with
  the magnitude of the increase. -/
  | increase (fromLOD toLOD : Nat) (amount : Rat)
  /-- `"%.1f%% reduction"` — the insufficient-reduction branch. -/
  | insufficient (fromLOD toLOD : Nat) (amount : Rat)
  deriving DecidableEq, Repr

/-- The human description of a result, as the structured arguments of the
source's format strings. -/
inductive ResultDescr where
  /-- `"Failed to load StaticMesh asset: {0}"` (analyzer load failure). -/
  | staticMeshLoadFail (assetName : String)
  /-- The coalesced LOD poly-reduction description: the per-pair issue texts
  and the required percentage. -/
  | lodPolyReduction (entries : List LODIssueText) (needPercent : Rat)
  /-- The UV-overlap description: channel, triangle count, percentage. -/
  | uvOverlap (channel : Int) (count : Int) (percent : Rat)
  deriving DecidableEq, Repr

/-- `FAssetAnalysisResult`, the fields the claims speak about. The
`FixAction` delegate is host-bound and not modelled. -/
structure FAssetAnalysisResult where
  severity : EAssetIssueSeverity
  ruleID : String
  descr : ResultDescr
  deriving DecidableEq, Repr

/-- `FAssetData`: the handle the scanner iterates; `valid` is
`AssetData.IsValid()`. -/
structure FAssetData where
  assetName : String
  valid : Bool
  deriving DecidableEq, Repr

/-- An analyzer as `IAssetAnalyzer::AnalyzeAsset`: appends results for one
asset given the active profile. -/
def AssetAnalyzer : Type :=
  FAssetData → UPipelineGuardianProfile → List FAssetAnalysisResult →
    List FAssetAnalysisResult

/-- `FAssetScanner`: the class-to-analyzer registry (`AssetAnalyzersMap`),
keyed by class identifier. -/
structure FAssetScanner where
  analyzersMap : List (Nat × AssetAnalyzer)

/-- Registry lookup for one class (`AssetAnalyzersMap.Find`). -/
def lookupAnalyzer (m : List (Nat × AssetAnalyzer)) (c : Nat) :
    Option AssetAnalyzer :=
  (m.find? (fun kv => kv.1 = c)).map (fun kv => kv.2)

/-- The `while (CurrentClass != nullptr)` walk of
`FAssetScanner::AnalyzeSingleAsset`: the asset's class chain, most-derived
first (`GetClass`, then `GetSuperClass` links), searched until a registered
analyzer is found. -/
def findAnalyzerForChain (m : List (Nat × AssetAnalyzer)) :
    List Nat → Option AssetAnalyzer
  | [] => none
  | c :: rest =>
    match lookupAnalyzer m c with
    | some a => some a
    | none => findAnalyzerForChain m rest

/-- `FAssetScanner::AnalyzeSingleAsset`. `loadedChain` is the result of
`AssetData.GetAsset()`: `none` models a load failure (the function then
only logs — the synthetic failure result in the source is commented out);
`settings` is the active profile (`Settings->GetActiveProfile()`), without
which the analyzer is not run. -/
def analyzeSingleAsset (scanner : FAssetScanner) (assetData : FAssetData)
    (loadedChain : Option (List Nat))
    (settings : Option UPipelineGuardianProfile)
    (outResults : List FAssetAnalysisResult) : List FAssetAnalysisResult :=
  if !assetData.valid then outResults
  else
    match loadedChain with
    | none => outResults
    | some chain =>
      match findAnalyzerForChain scanner.analyzersMap chain with
      | some analyzer =>
        match settings with
        | some profile => analyzer assetData profile outResults
        | none => outResults
      | none => outResults

/-- The single synthetic load-failure result
`FStaticMeshAnalyzer::AnalyzeAsset` appends when the cast/load of the
static mesh fails. -/
def loadFailureResult (assetName : String) : FAssetAnalysisResult :=
  { severity := .error, ruleID := "SM_AssetLoading",
    descr := .staticMeshLoadFail assetName }

/-- `FStaticMeshAnalyzer::AnalyzeAsset` over an abstract mesh type `α`:
invalid asset data or a missing profile aborts with no results; a failed
cast/load appends exactly the synthetic Error result; otherwise every rule
of `StaticMeshRules` runs in registration order, threading the result
array. -/
def staticMeshAnalyzerAnalyzeAsset {α : Type}
    (rules : List (α → UPipelineGuardianProfile → List FAssetAnalysisResult →
      List FAssetAnalysisResult))
    (assetData : FAssetData) (loadedMesh : Option α)
    (profile : Option UPipelineGuardianProfile)
    (outResults : List FAssetAnalysisResult) : List FAssetAnalysisResult :=
  if !assetData.valid then outResults
  else
    match profile with
    | none => outResults
    | some prof =>
      match loadedMesh with
      | none => outResults ++ [loadFailureResult assetData.assetName]
      | some mesh =>
        rules.foldl (fun acc rule => rule mesh prof acc) outResults

/-! ## LOD poly-reduction rule (`FStaticMeshLODPolyReductionRule.cpp`) -/

/-- `FStaticMeshLODPolyReductionRule::CalculateReductionPercentage`:
`(Higher - Lower) / Higher * 100`, 0 when the higher count is 0. -/
def calculateReductionPercentage (higher lower : Int) : Rat :=
  if higher = 0 then 0
  else ((higher : Rat) - (lower : Rat)) / (higher : Rat) * 100

/-- `FStaticMeshLODPolyReductionRule::GetSeverityForReduction`: Error below
the error threshold, else Warning below the warning threshold, else Info
below the minimum, else the fallback Warning. -/
def getSeverityForReduction (actual minReduction warnThresh errThresh : Rat) :
    EAssetIssueSeverity :=
  if actual < errThresh then .error
  else if actual < warnThresh then .warning
  else if actual < minReduction then .info
  else .warning

/-- Loop state of `FStaticMeshLODPolyReductionRule::Check`: the problematic
LOD list, the accumulated description entries, the running `WorstSeverity`,
and `bFoundIssues`. -/
structure LODCheckState where
  problematicLODs : List Nat
  entries : List LODIssueText
  worst : EAssetIssueSeverity
  found : Bool
  deriving Repr

/-- One iteration of the consecutive-pair loop of
`FStaticMeshLODPolyReductionRule::Check` for LOD index `i ≥ 1`, on the pair
(`counts[i-1]`, `counts[i]`): zero-count pairs are skipped; an insufficient
pair is recorded, `WorstSeverity` is updated through the C++ `>` on the
severity enum, and the description entry distinguishes a negative reduction
(`INCREASE`) from an insufficient one. -/
def lodCheckStep (minReduction warnThresh errThresh : Rat)
    (i : Nat) (prev cur : Int) (st : LODCheckState) : LODCheckState :=
  if prev = 0 ∨ cur = 0 then st
  else
    let red := calculateReductionPercentage prev cur
    if red < minReduction then
      let sev := getSeverityForReduction red minReduction warnThresh errThresh
      let worst := if sevGT sev st.worst then sev else st.worst
      let entry :=
        if red < 0 then LODIssueText.increase (i - 1) i (|red|)
        else LODIssueText.insufficient (i - 1) i red
      { problematicLODs := st.problematicLODs ++ [i],
        entries := st.entries ++ [entry], worst := worst, found := true }
    else st

/-- The `for (LODIndex = 1; LODIndex < LODCount; ++LODIndex)` loop of
`FStaticMeshLODPolyReductionRule::Check`, carrying the previous LOD's
triangle count: consecutive pairs in index order. -/
def lodCheckRun (minReduction warnThresh errThresh : Rat) :
    Nat → Int → List Int → LODCheckState → LODCheckState
  | _, _, [], st => st
  | i, prev, cur :: rest, st =>
    lodCheckRun minReduction warnThresh errThresh (i + 1) cur rest
      (lodCheckStep minReduction warnThresh errThresh i prev cur st)

/-- `FStaticMeshLODPolyReductionRule::Check`. `asset` is the cast result
(`none` = not a static mesh); a loaded mesh is its per-LOD render-data
triangle counts; `atof` is the host's `FCString::Atof`. Returns
`bFoundIssues` and the result array. -/
def lodPolyReductionCheck (atof : String → Rat) (asset : Option (List Int))
    (profile : Option UPipelineGuardianProfile)
    (outResults : List FAssetAnalysisResult) :
    Bool × List FAssetAnalysisResult :=
  match asset with
  | none => (false, outResults)
  | some counts =>
    match profile with
    | none => (false, outResults)
    | some p =>
      if !isRuleEnabled p "SM_LODPolyReduction" then (false, outResults)
      else
        let minReduction :=
          atof (getRuleParameter p "SM_LODPolyReduction"
            "MinReductionPercentage" "30.0")
        let warnThresh :=
          atof (getRuleParameter p "SM_LODPolyReduction"
            "WarningThreshold" "20.0")
        let errThresh :=
          atof (getRuleParameter p "SM_LODPolyReduction"
            "ErrorThreshold" "10.0")
        if counts.length < 2 then (false, outResults)
        else
          let st :=
            match counts with
            | [] =>
              ({ problematicLODs := [], entries := [],
                 worst := .info, found := false } : LODCheckState)
            | c0 :: rest =>
              lodCheckRun minReduction warnThresh errThresh 1 c0 rest
                { problematicLODs := [], entries := [],
                  worst := .info, found := false }
          if st.found ∧ st.problematicLODs ≠ [] then
            (true,
             outResults ++
               [{ severity := st.worst, ruleID := "SM_LODPolyReduction",
                  descr := .lodPolyReduction st.entries minReduction }])
          else (st.found, outResults)

/-! ## UV-overlap rule (`FStaticMeshUVOverlappingRule.cpp`) -/

/-- `FMath::RoundToInt` on our rationals: floor of `x + 0.5`. -/
def roundToInt (x : Rat) : Int := ⌊x + 1 / 2⌋

/-- `FMath::Clamp`. -/
def clampQ (x lo hi : Rat) : Rat := if x < lo then lo else if hi < x then hi else x

/-- `FTriangleUVBounds`: a triangle's axis-aligned bounding box in UV
space. -/
structure FTriangleUVBounds where
  minU : Rat
  minV : Rat
  maxU : Rat
  maxV : Rat
  deriving DecidableEq, Repr

/-- `FTriangleUVBounds::GetArea`: the box's width times height. -/
def FTriangleUVBounds.getArea (b : FTriangleUVBounds) : Rat :=
  (b.maxU - b.minU) * (b.maxV - b.minV)

/-- `FTriangleUVBounds::Overlaps`: the boxes' overlap area must strictly
exceed `Tolerance` times the smaller box area. -/
def FTriangleUVBounds.overlaps (b other : FTriangleUVBounds) (tol : Rat) :
    Bool :=
  let overlapWidth := max 0 (min b.maxU other.maxU - max b.minU other.minU)
  let overlapHeight := max 0 (min b.maxV other.maxV - max b.minV other.minV)
  let overlapArea := overlapWidth * overlapHeight
  let minArea := min b.getArea other.getArea
  let overlapThreshold := minArea * tol
  decide (overlapThreshold < overlapArea)

/-- The zero-initialized bounds (`FTriangleUVBounds()` default
constructor). -/
def zeroBounds : FTriangleUVBounds :=
  { minU := 0, minV := 0, maxU := 0, maxV := 0 }

/-- One triangle's three UV coordinates in one channel. -/
structure UVTriangle where
  u0 : Rat
  v0 : Rat
  u1 : Rat
  v1 : Rat
  u2 : Rat
  v2 : Rat
  deriving DecidableEq, Repr

/-- `FStaticMeshUVOverlappingRule::GetTriangleUVBounds`: fold min/max over
the triangle's three vertex-instance UVs. -/
def getTriangleUVBounds (t : UVTriangle) : FTriangleUVBounds :=
  { minU := min t.u0 (min t.u1 t.u2), minV := min t.v0 (min t.v1 t.v2),
    maxU := max t.u0 (max t.u1 t.u2), maxV := max t.v0 (max t.v1 t.v2) }

/-- `FStaticMeshUVOverlappingRule::BuildTriangleUVBounds`: bounds of every
triangle, keeping only those with positive (non-degenerate) box area. -/
def buildTriangleUVBounds (tris : List UVTriangle) : List FTriangleUVBounds :=
  (tris.map getTriangleUVBounds).filter (fun b => decide (0 < b.getArea))

/-- `TArray::AddUnique`. -/
def addUnique (l : List Nat) (x : Nat) : List Nat :=
  if l.contains x then l else l ++ [x]

/-- `FStaticMeshUVOverlappingRule::DetectOverlappingTriangles`: brute-force
pairwise test, collecting (by position) each triangle of an overlapping
pair once. -/
def detectOverlappingTriangles (bounds : List FTriangleUVBounds)
    (tol : Rat) : List Nat :=
  (List.range bounds.length).foldl
    (fun acc i =>
      (List.range bounds.length).foldl
        (fun acc2 j =>
          if i < j ∧
              (bounds.getD i zeroBounds).overlaps (bounds.getD j zeroBounds)
                tol then
            addUnique (addUnique acc2 i) j
          else acc2)
        acc)
    []

/-- The `SimilarBoundsCount` loop of
`FStaticMeshUVOverlappingRule::AnalyzeUVChannelOverlaps`: among the
triangles after the first, those whose bounding-box size differs from
triangle 0's by squared distance below `0.0001`. -/
def similarBoundsCount (bounds : List FTriangleUVBounds) : Nat :=
  match bounds with
  | [] => 0
  | b0 :: rest =>
    let firstW := b0.maxU - b0.minU
    let firstH := b0.maxV - b0.minV
    rest.countP fun bi =>
      decide
        (((bi.maxU - bi.minU) - firstW) ^ 2 +
            ((bi.maxV - bi.minV) - firstH) ^ 2 < 1 / 10000)

/-- The `SimilarityRatio`: the similar-bounds count over the triangle
count. -/
def similarBoundsRatio (bounds : List FTriangleUVBounds) : Rat :=
  (similarBoundsCount bounds : Rat) / (bounds.length : Rat)

/-- `FUVOverlapInfo`, the per-channel analysis outcome. -/
structure FUVOverlapInfo where
  uvChannel : Int
  overlappingTriangleCount : Int
  overlapPercentage : Rat
  deriving DecidableEq, Repr

/-- `FStaticMeshUVOverlappingRule::AnalyzeUVChannelOverlaps`. The pairwise
detection result is computed and then only logged by the source; the
reported issue comes solely from the similar-bounds heuristic: with more
than 4 non-degenerate triangles, count those (from index 1) whose box size
differs from triangle 0's by squared distance below `0.0001`, and flag the
channel when that count exceeds 80% of the triangles. `none` models the
`false` return (no issue found / no usable bounds). -/
def analyzeUVChannelOverlaps (tris : List UVTriangle) (uvChannel : Int)
    (tol : Rat) : Option FUVOverlapInfo :=
  if uvChannel < 0 then none
  else
    let bounds := buildTriangleUVBounds tris
    if bounds.length = 0 then none
    else
      let _overlapping := detectOverlappingTriangles bounds tol
      if 4 < bounds.length then
        let ratio := similarBoundsRatio bounds
        if 8 / 10 < ratio then
          some
            { uvChannel := uvChannel,
              overlappingTriangleCount := roundToInt (ratio * bounds.length),
              overlapPercentage := ratio * 100 }
        else none
      else none

/-- `FStaticMeshUVOverlappingRule::ShouldCheckUVChannel`: profile-driven
per-channel switches, defaults checking channels 0–1 without a profile. -/
def shouldCheckUVChannel (profile : Option UPipelineGuardianProfile)
    (uvChannel : Int) : Bool :=
  match profile with
  | none => decide (0 ≤ uvChannel ∧ uvChannel ≤ 1)
  | some p =>
    if uvChannel = 0 then
      getRuleParameter p "SM_UVOverlapping" "CheckUVChannel0" "true" = "true"
    else if uvChannel = 1 then
      getRuleParameter p "SM_UVOverlapping" "CheckUVChannel1" "true" = "true"
    else if uvChannel = 2 then
      getRuleParameter p "SM_UVOverlapping" "CheckUVChannel2" "false" = "true"
    else if uvChannel = 3 then
      getRuleParameter p "SM_UVOverlapping" "CheckUVChannel3" "false" = "true"
    else false

/-- `FStaticMeshUVOverlappingRule::GetOverlapToleranceForChannel`: channel 1
uses the lightmap tolerance parameter, others the texture one, parsed by
the host's `Atof` and clamped to `[0.0001, 0.01]`. -/
def getOverlapToleranceForChannel (atof : String → Rat)
    (profile : Option UPipelineGuardianProfile) (uvChannel : Int) : Rat :=
  match profile with
  | none =>
    if uvChannel = 0 then 1 / 1000
    else if uvChannel = 1 then 1 / 2000
    else 1 / 500
  | some p =>
    let texTol :=
      getRuleParameter p "SM_UVOverlapping" "TextureUVTolerance" "0.001"
    let lmTol :=
      getRuleParameter p "SM_UVOverlapping" "LightmapUVTolerance" "0.0005"
    let tol := if uvChannel = 1 then atof lmTol else atof texTol
    clampQ tol (1 / 10000) (1 / 100)

/-- `FStaticMeshUVOverlappingRule::GetSeverityForOverlapPercentage`:
profile-configurable warning/error thresholds, stricter for the lightmap
channel. -/
def getSeverityForOverlapPercentage (atof : String → Rat)
    (profile : Option UPipelineGuardianProfile) (overlapPercentage : Rat)
    (bIsLightmapChannel : Bool) : EAssetIssueSeverity :=
  match profile with
  | none =>
    if bIsLightmapChannel then
      if 8 < overlapPercentage then .error
      else if 2 < overlapPercentage then .warning
      else .info
    else
      if 15 < overlapPercentage then .error
      else if 5 < overlapPercentage then .warning
      else .info
  | some p =>
    if bIsLightmapChannel then
      let warnThresh :=
        atof (getRuleParameter p "SM_UVOverlapping"
          "LightmapWarningThreshold" "2.0")
      let errThresh :=
        atof (getRuleParameter p "SM_UVOverlapping"
          "LightmapErrorThreshold" "8.0")
      if errThresh < overlapPercentage then .error
      else if warnThresh < overlapPercentage then .warning
      else .info
    else
      let warnThresh :=
        atof (getRuleParameter p "SM_UVOverlapping"
          "TextureWarningThreshold" "5.0")
      let errThresh :=
        atof (getRuleParameter p "SM_UVOverlapping"
          "TextureErrorThreshold" "15.0")
      if errThresh < overlapPercentage then .error
      else if warnThresh < overlapPercentage then .warning
      else .info

/-- `FStaticMeshUVOverlappingRule::DetermineOverlapSeverity`: Warning
without a profile; otherwise the percentage thresholds with
`bIsLightmapChannel` hard-coded to `false`. -/
def determineOverlapSeverity (atof : String → Rat)
    (info : FUVOverlapInfo) (profile : Option UPipelineGuardianProfile) :
    EAssetIssueSeverity :=
  match profile with
  | none => .warning
  | some p =>
    getSeverityForOverlapPercentage atof (some p) info.overlapPercentage false

/-- A static mesh as the UV rule reads it: `GetMeshDescription(0)`, holding
per-channel triangle UV lists (`none` = no mesh description). -/
structure UStaticMeshUV where
  meshDesc : Option (List (List UVTriangle))
  deriving Repr

/-- `FStaticMeshUVOverlappingRule::AnalyzeStaticMeshUVOverlaps`: channels
0–7 that the profile enables and the mesh has are analyzed; the collected
infos are returned with the success flag. -/
def analyzeStaticMeshUVOverlaps (atof : String → Rat)
    (meshDesc : Option (List (List UVTriangle)))
    (profile : Option UPipelineGuardianProfile) :
    Bool × List FUVOverlapInfo :=
  match profile with
  | none => (false, [])
  | some p =>
    match meshDesc with
    | none => (false, [])
    | some channels =>
      let infos :=
        (List.range' 0 8).foldl
          (fun acc (ch : Nat) =>
            let chI : Int := (ch : Int)
            if !shouldCheckUVChannel (some p) chI then acc
            else if !(decide (0 ≤ chI) && decide (chI < channels.length)) then
              acc
            else
              let tol := getOverlapToleranceForChannel atof (some p) chI
              match analyzeUVChannelOverlaps (channels.getD ch []) chI tol with
              | some info => acc ++ [info]
              | none => acc)
          []
      (true, infos)

/-- `FStaticMeshUVOverlappingRule::Check`: no profile fails; a disabled
rule returns `true` with no results; a non-static-mesh asset (`none`)
fails; otherwise one result per problematic channel
(`OverlappingTriangleCount > 0`) with the determined severity. -/
def uvOverlappingCheck (atof : String → Rat) (asset : Option UStaticMeshUV)
    (profile : Option UPipelineGuardianProfile)
    (outResults : List FAssetAnalysisResult) :
    Bool × List FAssetAnalysisResult :=
  match profile with
  | none => (false, outResults)
  | some p =>
    if !isRuleEnabled p "SM_UVOverlapping" then (true, outResults)
    else
      match asset with
      | none => (false, outResults)
      | some sm =>
        match analyzeStaticMeshUVOverlaps atof sm.meshDesc (some p) with
        | (false, _) => (false, outResults)
        | (true, infos) =>
          let results :=
            infos.foldl
              (fun acc info =>
                if 0 < info.overlappingTriangleCount then
                  acc ++
                    [{ severity := determineOverlapSeverity atof info (some p),
                       ruleID := "SM_UVOverlapping",
                       descr := .uvOverlap info.uvChannel
                         info.overlappingTriangleCount
                         info.overlapPercentage }]
                else acc)
              outResults
          (true, results)

/-! ## Fix-all LOD repair (`FStaticMeshLODPolyReductionRule::FixAllLODReductions`) -/

/-- The observable steps of the fix-all repair, in source order. -/
inductive FixEvent where
  /-- `StaticMesh->Modify()`. -/
  | modifyMesh
  /-- Writing `ReductionSettings.PercentTriangles` (relative to LOD0, with
  `BaseLODModel = 0`) for one LOD's source model. -/
  | setReduction (lodIndex : Nat) (percentTriangles : Rat)
  /-- `StaticMesh->Build(false)`. -/
  | buildMesh
  /-- `StaticMesh->MarkPackageDirty()`. -/
  | markDirty
  /-- The closing `FMessageDialog`: full success or the partial outcome. -/
  | dialog (allSuccessful : Bool)
  /-- The `FMessageDialog` of the missing-reduction-interface early
  return. -/
  | dialogNoInterface
  deriving DecidableEq, Repr

/-- The `PreviousLODTriangles` of the fix-all target computation: LOD0's
count for index 1, else the progressive projection
`RoundToInt(Base * ((100 - T)/100)^(i-1))`. -/
def fixAllPrevCount (base : Int) (target : Rat) (lodIndex : Nat) : Int :=
  if lodIndex = 1 then base
  else roundToInt ((base : Rat) * ((100 - target) / 100) ^ (lodIndex - 1))

/-- The fix-all `TargetTriangleCount` for one LOD: the rounded progressive
reduction from the previous LOD's projected count, floored at 4
triangles. -/
def fixAllTargetCount (base : Int) (target : Rat) (lodIndex : Nat) : Int :=
  max (roundToInt ((fixAllPrevCount base target lodIndex : Rat) *
    (100 - target) / 100)) 4

/-- The fix-all `TargetTrianglePercentage`: the target count as a fraction
of LOD0's count, clamped to `[0.01, 1.0]`. -/
def fixAllTargetPercentage (base : Int) (target : Rat) (lodIndex : Nat) :
    Rat :=
  clampQ ((fixAllTargetCount base target lodIndex : Rat) / (base : Rat))
    (1 / 100) 1

/-- The settings-update loop of the fix-all repair
(`for LODIndex = 1; LODIndex < TotalLODs`): per LOD with a valid source
model, the LOD0-relative target percentage. -/
def fixAllSettings (counts : List Int) (targetReduction : Rat)
    (numSourceModels : Nat) : List (Nat × Rat) :=
  (List.range' 1 (counts.length - 1)).filterMap fun i =>
    if i < numSourceModels then
      some (i, fixAllTargetPercentage (counts.getD 0 0) targetReduction i)
    else none

/-- The verification loop of the fix-all repair: per LOD, the achieved
reduction from the previous post-build LOD (LOD1 compares against the
pre-build LOD0 count). -/
def fixAllReductions (counts : List Int) (newCounts : List Int) :
    List Rat :=
  (List.range' 1 (counts.length - 1)).map fun i =>
    let prevTris : Int :=
      if i = 1 then counts.getD 0 0 else newCounts.getD (i - 1) 0
    let newTris : Int := newCounts.getD i 0
    ((prevTris : Rat) - (newTris : Rat)) / (prevTris : Rat) * 100

/-- `FStaticMeshLODPolyReductionRule::FixAllLODReductions`. `counts` are the
pre-repair per-LOD render triangle counts; `numSourceModels` the length of
`GetSourceModels()` (settings are only written for valid indices);
`meshReductionAvailable` whether the host reduction backend resolves;
`build` the host rebuild — from the written per-LOD percentage settings to
the post-build per-LOD triangle counts. Returns the event trace and, unless
an early return fired, the `bAllFixesSuccessful` flag with the recomputed
per-LOD reductions. -/
def fixAllLODReductions (counts : List Int) (problematicLODs : List Nat)
    (targetReduction : Rat) (numSourceModels : Nat)
    (meshReductionAvailable : Bool)
    (build : List (Nat × Rat) → List Int) :
    List FixEvent × Option (Bool × List Rat) :=
  if problematicLODs.isEmpty then ([], none)
  else if !meshReductionAvailable then ([.dialogNoInterface], none)
  else
    let settings := fixAllSettings counts targetReduction numSourceModels
    let newCounts := build settings
    let reductions := fixAllReductions counts newCounts
    let allOk := reductions.all fun r => decide (¬5 < |r - targetReduction|)
    ([FixEvent.modifyMesh] ++
       settings.map (fun s => FixEvent.setReduction s.1 s.2) ++
       [FixEvent.buildMesh, FixEvent.markDirty, FixEvent.dialog allOk],
     some (allOk, reductions))

/-! ## Cancellable evaluation loop (`SPipelineGuardianWindow`, game-thread
phase of `OnAssetScanPhaseComplete`) -/

/-- The per-asset loop: the cancel flag is polled once per asset before
analyzing it; on cancel the loop breaks with the partial-completion message
naming the processed and total counts, keeping the results already
collected. `analyze` is one `AnalyzeSingleAsset` call's appended results
for that asset. -/
def evaluationLoopGo (analyze : FAssetData → List FAssetAnalysisResult)
    (shouldCancel : Nat → Bool) (total : Nat) :
    List FAssetData → Nat → List FAssetAnalysisResult →
    List FAssetAnalysisResult × Nat × Option (Nat × Nat)
  | [], processed, acc => (acc, processed, none)
  | a :: rest, processed, acc =>
    if shouldCancel processed then (acc, processed, some (processed, total))
    else
      evaluationLoopGo analyze shouldCancel total rest (processed + 1)
        (acc ++ analyze a)

/-- The evaluation phase over the discovered assets: processed count starts
at 0, results start empty. Returns the final results, the processed count,
and the cancellation message (`Processed {K} of {N}`) if cancelled. -/
def evaluationLoop (assets : List FAssetData)
    (analyze : FAssetData → List FAssetAnalysisResult)
    (shouldCancel : Nat → Bool) :
    List FAssetAnalysisResult × Nat × Option (Nat × Nat) :=
  evaluationLoopGo analyze shouldCancel assets.length assets 0 []

/-- A concrete model of the host's `FCString::Atof` at the numeric literals
the profile's defaults use, for evaluating the rules at concrete inputs. -/
def atofLit (s : String) : Rat :=
  if s = "30.0" then 30
  else if s = "20.0" then 20
  else if s = "10.0" then 10
  else if s = "0.001" then 1 / 1000
  else if s = "0.0005" then 1 / 2000
  else if s = "5.0" then 5
  else if s = "15.0" then 15
  else if s = "2.0" then 2
  else if s = "8.0" then 8
  else 0

/-! ## Sample inputs for counterexamples and witnesses -/

/-- A unit right triangle in UV space: bounds `[0,1] × [0,1]`, box area 1. -/
def c1Triangle : UVTriangle :=
  { u0 := 0, v0 := 0, u1 := 1, v1 := 0, u2 := 0, v2 := 1 }

/-- The default profile with the UV-overlap rule switched off. -/
def uvDisabledProfile : UPipelineGuardianProfile :=
  setRuleConfig defaultProfile
    { ruleID := "SM_UVOverlapping", bEnabled := false, parameters := [] }

/-- A scanner with an empty analyzer registry. -/
def emptyScanner : FAssetScanner := { analyzersMap := [] }

/-- A valid asset handle. -/
def sampleAsset : FAssetData := { assetName := "SM_Rock", valid := true }

/-- A profile document whose `Rules` array repeats one RuleID. -/
def duplicateRuleDoc : JVal :=
  JVal.jobj
    [("Rules",
      JVal.jarr
        [JVal.jobj
           [("RuleID", JVal.jstr "SM_Naming"), ("Enabled", JVal.jbool true),
            ("Parameters", JVal.jobj [])],
         JVal.jobj
           [("RuleID", JVal.jstr "SM_Naming"), ("Enabled", JVal.jbool false),
            ("Parameters", JVal.jobj [])]])]

/-! ## Claim C2 — the coalesced LOD result's severity -/

/-- C2 (code bug at the cited lines): for LOD triangle counts
`[1000, 990, 980]` under the default thresholds (minimum 30 / warning 20 /
error 10), both consecutive pairs reduce by about 1%, so
`GetSeverityForReduction` grades each pair Error — yet the single reported
result carries severity Info, because `WorstSeverity` starts at `Info`
(underlying value 3, the enum's maximum) and `CurrentSeverity >
WorstSeverity` compares underlying values, so the update the source
comments as "track the worst one" never fires. -/
theorem c2_lod_worst_severity_is_info :
    getSeverityForReduction (calculateReductionPercentage 1000 990) 30 20 10 =
        EAssetIssueSeverity.error ∧
      getSeverityForReduction (calculateReductionPercentage 990 980) 30 20 10 =
        EAssetIssueSeverity.error ∧
      (lodPolyReductionCheck atofLit (some [1000, 990, 980])
            (some defaultProfile) []).2 =
        [{ severity := EAssetIssueSeverity.info,
           ruleID := "SM_LODPolyReduction",
           descr := ResultDescr.lodPolyReduction
             [LODIssueText.insufficient 0 1 1,
              LODIssueText.insufficient 1 2 (100 / 99)] 30 }] := by
  refine ⟨?_, ?_, ?_⟩
  · norm_num [getSeverityForReduction, calculateReductionPercentage]
  · norm_num [getSeverityForReduction, calculateReductionPercentage]
  · have hen : isRuleEnabled defaultProfile "SM_LODPolyReduction" = true := by
      decide
    have hmin : getRuleParameter defaultProfile "SM_LODPolyReduction"
        "MinReductionPercentage" "30.0" = "30.0" := by decide
    have hwarn : getRuleParameter defaultProfile "SM_LODPolyReduction"
        "WarningThreshold" "20.0" = "20.0" := by decide
    have herr : getRuleParameter defaultProfile "SM_LODPolyReduction"
        "ErrorThreshold" "10.0" = "10.0" := by decide
    have a30 : atofLit "30.0" = 30 := by decide
    have a20 : atofLit "20.0" = 20 := by decide
    have a10 : atofLit "10.0" = 10 := by decide
    simp only [lodPolyReductionCheck, hen, hmin, hwarn, herr, a30, a20, a10]
    norm_num [lodCheckRun, lodCheckStep, calculateReductionPercentage,
      getSeverityForReduction, sevGT, sevValue]
    simp

/-! ## Claim C3 — disabled rules -/

/-- C3 counterexample: with `SM_UVOverlapping` disabled in the profile, the
UV-overlap rule's `Check` returns `true`, not `false` as the claim states
(it does append no results). -/
theorem c3_counterexample_uv_disabled_returns_true :
    isRuleEnabled uvDisabledProfile "SM_UVOverlapping" = false ∧
      (uvOverlappingCheck atofLit (some { meshDesc := none })
          (some uvDisabledProfile) []).1 = true ∧
      ¬(uvOverlappingCheck atofLit (some { meshDesc := none })
          (some uvDisabledProfile) []).1 = false := by
  refine ⟨by decide, by decide, by decide⟩

/-- C3 amended: a rule disabled in the active profile appends no results
for any input asset; the LOD poly-reduction rule then returns `false`, but
the UV-overlap rule returns `true`. -/
theorem c3_amended_disabled_rule_appends_nothing
    (atof : String → Rat) (p₁ p₂ : UPipelineGuardianProfile)
    (uvAsset : Option UStaticMeshUV) (lodAsset : Option (List Int))
    (out : List FAssetAnalysisResult) :
    (isRuleEnabled p₁ "SM_UVOverlapping" = false →
      uvOverlappingCheck atof uvAsset (some p₁) out = (true, out)) ∧
      (isRuleEnabled p₂ "SM_LODPolyReduction" = false →
        lodPolyReductionCheck atof lodAsset (some p₂) out = (false, out)) := by
  constructor
  · intro h
    simp [uvOverlappingCheck, h]
  · intro h
    cases lodAsset with
    | none => simp [lodPolyReductionCheck]
    | some counts => simp [lodPolyReductionCheck, h]

/-! ## Claim C4 — load-failure handling at dispatch -/

/-- C4 counterexample: when `AssetData.GetAsset()` fails during dispatch,
`FAssetScanner::AnalyzeSingleAsset` appends nothing (the synthetic failure
result is commented out in the source) — not the one synthetic Error result
the claim states. -/
theorem c4_counterexample_no_synthetic_result :
    analyzeSingleAsset emptyScanner sampleAsset none (some defaultProfile) []
        = [] ∧
      ¬(analyzeSingleAsset emptyScanner sampleAsset none (some defaultProfile)
            []).length = 1 := by
  refine ⟨rfl, by decide⟩

/-- C4 amended: a load failure at dispatch appends no result at all (the
scan merely logs and continues with the remaining assets); the single
synthetic Error result (`SM_AssetLoading`) exists one level down, appended
by the static-mesh analyzer exactly once when its own cast/load of the
dispatched object fails. -/
theorem c4_amended_load_failure_paths {α : Type}
    (scanner : FAssetScanner) (assetData : FAssetData)
    (settings : Option UPipelineGuardianProfile)
    (rules : List (α → UPipelineGuardianProfile → List FAssetAnalysisResult →
      List FAssetAnalysisResult))
    (p : UPipelineGuardianProfile) (out : List FAssetAnalysisResult) :
    analyzeSingleAsset scanner assetData none settings out = out ∧
      (assetData.valid = true →
        staticMeshAnalyzerAnalyzeAsset rules assetData (none : Option α)
            (some p) out =
          out ++ [loadFailureResult assetData.assetName]) := by
  constructor
  · unfold analyzeSingleAsset
    cases h : assetData.valid <;> simp
  · intro h
    unfold staticMeshAnalyzerAnalyzeAsset
    simp [h]

/-! ## Claim C10 — unconfigured RuleIDs are disabled -/

/-- C10: a RuleID with no config entry in the profile is treated as
disabled — `IsRuleEnabled` returns `false` for it even though the
default-constructed `FPipelineGuardianRuleConfig` has `bEnabled = true` —
so the UV-overlap and LOD poly-reduction rules append no results for any
asset under a profile that never configured them. -/
theorem c10_unconfigured_rule_is_disabled
    (p : UPipelineGuardianProfile) (rid : String) (atof : String → Rat)
    (uvAsset : Option UStaticMeshUV) (lodAsset : Option (List Int))
    (out : List FAssetAnalysisResult)
    (h : ∀ c ∈ p.ruleConfigs, c.ruleID ≠ rid)
    (huv : ∀ c ∈ p.ruleConfigs, c.ruleID ≠ "SM_UVOverlapping")
    (hlod : ∀ c ∈ p.ruleConfigs, c.ruleID ≠ "SM_LODPolyReduction") :
    isRuleEnabled p rid = false ∧
      defaultRuleConfig.bEnabled = true ∧
      uvOverlappingCheck atof uvAsset (some p) out = (true, out) ∧
      lodPolyReductionCheck atof lodAsset (some p) out = (false, out) := by
  have hnone : ∀ rid', (∀ c ∈ p.ruleConfigs, c.ruleID ≠ rid') →
      getRuleConfigPtr p rid' = none := by
    intro rid' hall
    unfold getRuleConfigPtr
    rw [List.find?_eq_none]
    intro c hc
    simpa using hall c hc
  have hdis : ∀ rid', (∀ c ∈ p.ruleConfigs, c.ruleID ≠ rid') →
      isRuleEnabled p rid' = false := by
    intro rid' hall
    unfold isRuleEnabled
    rw [hnone rid' hall]
  refine ⟨hdis rid h, rfl, ?_, ?_⟩
  · simp [uvOverlappingCheck, hdis _ huv]
  · cases lodAsset with
    | none => simp [lodPolyReductionCheck]
    | some counts => simp [lodPolyReductionCheck, hdis _ hlod]

/-- C10 witness: the empty profile configures no rule, so both rules stay
silent on it. -/
theorem c10_witness :
    (∀ c ∈ (UPipelineGuardianProfile.mk "" "" 0 []).ruleConfigs,
        c.ruleID ≠ "SM_Naming") ∧
      isRuleEnabled (UPipelineGuardianProfile.mk "" "" 0 []) "SM_Naming" =
          false ∧
        defaultRuleConfig.bEnabled = true ∧
        uvOverlappingCheck atofLit none
            (some (UPipelineGuardianProfile.mk "" "" 0 [])) [] = (true, []) ∧
        lodPolyReductionCheck atofLit none
            (some (UPipelineGuardianProfile.mk "" "" 0 [])) [] = (false, []) :=
  ⟨by simp,
   c10_unconfigured_rule_is_disabled (UPipelineGuardianProfile.mk "" "" 0 [])
     "SM_Naming" atofLit none none [] (by simp) (by simp) (by simp)⟩

/-! ## Claim C1 — UV-overlap detection -/

/-- C1 counterexample: two identical non-degenerate triangles whose
bounding boxes fully coincide overlap by far more than
`tolerance × min(area_A, area_B)` (`Overlaps` returns `true`), yet the
channel analysis reports nothing — `AnalyzeUVChannelOverlaps` discards the
pairwise detection result and only the >4-triangle similar-bounds heuristic
can flag a channel — and the whole rule returns no result for the mesh
under the default profile. -/
theorem c1_counterexample_overlapping_pair_not_reported :
    (getTriangleUVBounds c1Triangle).overlaps (getTriangleUVBounds c1Triangle)
        (1 / 1000) = true ∧
      analyzeUVChannelOverlaps [c1Triangle, c1Triangle] 0 (1 / 1000) = none ∧
      uvOverlappingCheck atofLit
          (some { meshDesc := some [[c1Triangle, c1Triangle]] })
          (some defaultProfile) [] = (true, []) := by
  have hA : ∀ tol : Rat,
      analyzeUVChannelOverlaps [c1Triangle, c1Triangle] 0 tol = none := by
    intro tol
    norm_num [analyzeUVChannelOverlaps, buildTriangleUVBounds,
      getTriangleUVBounds, FTriangleUVBounds.getArea, c1Triangle]
  refine ⟨?_, hA (1 / 1000), ?_⟩
  · norm_num [FTriangleUVBounds.overlaps, FTriangleUVBounds.getArea,
      getTriangleUVBounds, c1Triangle]
  · have hen : isRuleEnabled defaultProfile "SM_UVOverlapping" = true := by
      decide
    have hc0 : shouldCheckUVChannel (some defaultProfile) 0 = true := by decide
    have hc1 : shouldCheckUVChannel (some defaultProfile) 1 = true := by decide
    have hc2 : shouldCheckUVChannel (some defaultProfile) 2 = false := by
      decide
    have hc3 : shouldCheckUVChannel (some defaultProfile) 3 = false := by
      decide
    have hrest : ∀ ch : Int, 3 < ch →
        shouldCheckUVChannel (some defaultProfile) ch = false := by
      intro ch hch
      simp only [shouldCheckUVChannel]
      rw [if_neg (by omega), if_neg (by omega), if_neg (by omega),
        if_neg (by omega)]
    simp only [uvOverlappingCheck, hen, Bool.not_true,
      analyzeStaticMeshUVOverlaps, List.range']
    norm_num [hc0, hc1, hc2, hc3, hrest 4 (by norm_num),
      hrest 5 (by norm_num), hrest 6 (by norm_num), hrest 7 (by norm_num), hA]

/-- C1 amended: the box-overlap test itself is exactly the claim's strict
comparison — two boxes count as overlapping iff their overlap area strictly
exceeds `tolerance × min(boxArea_A, boxArea_B)`, and an overlap of exactly
that threshold is not flagged — but a channel is not reported whenever some
pair overlaps beyond tolerance: the per-channel analysis is independent of
the tolerance and reports iff the mesh has more than 4 non-degenerate
triangles of which more than 80% share near-identical bounding-box
dimensions. -/
theorem c1_amended_strict_tolerance_and_heuristic_reporting
    (b other : FTriangleUVBounds) (tol : Rat) (tris : List UVTriangle)
    (ch : Int) (tol₁ tol₂ : Rat) :
    (b.overlaps other tol = true ↔
      tol * min b.getArea other.getArea <
        max 0 (min b.maxU other.maxU - max b.minU other.minU) *
          max 0 (min b.maxV other.maxV - max b.minV other.minV)) ∧
      (max 0 (min b.maxU other.maxU - max b.minU other.minU) *
            max 0 (min b.maxV other.maxV - max b.minV other.minV) =
          tol * min b.getArea other.getArea →
        b.overlaps other tol = false) ∧
      analyzeUVChannelOverlaps tris ch tol₁ =
        analyzeUVChannelOverlaps tris ch tol₂ ∧
      (0 ≤ ch →
        (analyzeUVChannelOverlaps tris ch tol₁ ≠ none ↔
          4 < (buildTriangleUVBounds tris).length ∧
            8 / 10 < similarBoundsRatio (buildTriangleUVBounds tris))) := by
  refine ⟨?_, ?_, rfl, ?_⟩
  · simp [FTriangleUVBounds.overlaps, mul_comm]
  · intro h
    simp only [FTriangleUVBounds.overlaps, decide_eq_false_iff_not]
    rw [h]
    rw [mul_comm]
    exact lt_irrefl _
  · intro hch
    have hneg : ¬ch < 0 := not_lt.mpr hch
    unfold analyzeUVChannelOverlaps
    rw [if_neg hneg]
    by_cases h0 : (buildTriangleUVBounds tris).length = 0
    · simp [h0]
    · rw [if_neg h0]
      by_cases h4 : 4 < (buildTriangleUVBounds tris).length
      · rw [if_pos h4]
        by_cases hr : 8 / 10 < similarBoundsRatio (buildTriangleUVBounds tris)
        · simp [hr, h4]
        · simp [hr, h4]
      · rw [if_neg h4]
        simp [h4]

/-! ## Claim C7 — ancestor-walk dispatch -/

/-- The walk finds nothing when no class of the chain is registered. -/
theorem findAnalyzerForChain_eq_none (m : List (Nat × AssetAnalyzer)) :
    ∀ chain : List Nat, (∀ c ∈ chain, lookupAnalyzer m c = none) →
      findAnalyzerForChain m chain = none := by
  intro chain
  induction chain with
  | nil => intro _; rfl
  | cons c rest ih =>
    intro h
    unfold findAnalyzerForChain
    rw [h c (List.mem_cons_self c rest)]
    exact ih fun c' hc' => h c' (List.mem_cons_of_mem c hc')

/-- C7: dispatch walks the asset's class chain most-derived first — a class
without a registered analyzer defers to its ancestors; when the walk finds
an analyzer, dispatch runs it and returns its results; when no class of the
chain is registered, dispatch returns the results unchanged (logged no-op). -/
theorem c7_dispatch_ancestor_walk (scanner : FAssetScanner)
    (assetData : FAssetData) (c₀ : Nat) (rest chain : List Nat)
    (profile : UPipelineGuardianProfile) (analyzer : AssetAnalyzer)
    (out : List FAssetAnalysisResult) :
    (lookupAnalyzer scanner.analyzersMap c₀ = none →
      findAnalyzerForChain scanner.analyzersMap (c₀ :: rest) =
        findAnalyzerForChain scanner.analyzersMap rest) ∧
      (assetData.valid = true →
        findAnalyzerForChain scanner.analyzersMap chain = some analyzer →
        analyzeSingleAsset scanner assetData (some chain) (some profile) out =
          analyzer assetData profile out) ∧
      ((∀ c ∈ chain, lookupAnalyzer scanner.analyzersMap c = none) →
        analyzeSingleAsset scanner assetData (some chain) (some profile) out =
          out) := by
  refine ⟨?_, ?_, ?_⟩
  · intro h
    simp [findAnalyzerForChain, h]
  · intro hv hf
    simp [analyzeSingleAsset, hv, hf]
  · intro h
    have hn := findAnalyzerForChain_eq_none scanner.analyzersMap chain h
    cases hv : assetData.valid <;> simp [analyzeSingleAsset, hv, hn]

/-! ## Claim C8 — cancellation of the evaluation loop -/

/-- With the cancel flag raised from the `K`-th poll on, the loop stops
right there: it keeps the results of the assets already analyzed, reports
`(K, total)`, and analyzes none of the remaining assets. -/
theorem evaluationLoopGo_cancelled_at
    (analyze : FAssetData → List FAssetAnalysisResult) (K total : Nat) :
    ∀ (rest : List FAssetData) (processed : Nat)
      (acc : List FAssetAnalysisResult),
      processed ≤ K → K < processed + rest.length →
      evaluationLoopGo analyze (fun n => decide (K ≤ n)) total rest processed
          acc =
        (acc ++ (rest.take (K - processed)).flatMap analyze, K,
          some (K, total)) := by
  intro rest
  induction rest with
  | nil =>
    intro processed acc hp hl
    exact absurd hl (by simp; omega)
  | cons a rest ih =>
    intro processed acc hp hl
    simp only [List.length_cons] at hl
    by_cases hc : K ≤ processed
    · have hKp : K = processed := le_antisymm hc hp
      subst hKp
      unfold evaluationLoopGo
      simp
    · unfold evaluationLoopGo
      rw [if_neg (by simpa using hc)]
      rw [ih (processed + 1) (acc ++ analyze a) (by omega) (by omega)]
      have htake : K - processed = (K - (processed + 1)) + 1 := by omega
      rw [htake, List.take_succ_cons]
      simp

/-- C8: cancelling after `K` of `N` assets (the cancel flag turns true once
`K` assets are processed, and is polled once per asset) stops the loop
before asset `K+1`: the kept results are exactly those of the first `K`
assets, the partial-completion message names `K` of `N`, and the remaining
`N − K` assets contribute nothing. -/
theorem c8_cancellation_keeps_first_k (assets : List FAssetData)
    (analyze : FAssetData → List FAssetAnalysisResult) (K : Nat)
    (hK : K < assets.length) :
    evaluationLoop assets analyze (fun n => decide (K ≤ n)) =
      ((assets.take K).flatMap analyze, K, some (K, assets.length)) := by
  unfold evaluationLoop
  rw [evaluationLoopGo_cancelled_at analyze K assets.length assets 0 []
    (Nat.zero_le K) (by omega)]
  simp

/-- C8 witness: three assets, cancel raised after the second poll — the
loop keeps the first two assets' results and reports 2 of 3. -/
theorem c8_witness :
    2 < ([{ assetName := "A", valid := true },
          { assetName := "B", valid := true },
          { assetName := "C", valid := true }] : List FAssetData).length ∧
      evaluationLoop
          [{ assetName := "A", valid := true },
           { assetName := "B", valid := true },
           { assetName := "C", valid := true }]
          (fun a => [loadFailureResult a.assetName])
          (fun n => decide (2 ≤ n)) =
        ([loadFailureResult "A", loadFailureResult "B"], 2, some (2, 3)) := by
  refine ⟨by decide, ?_⟩
  have h := c8_cancellation_keeps_first_k
    [{ assetName := "A", valid := true },
     { assetName := "B", valid := true },
     { assetName := "C", valid := true }]
    (fun a => [loadFailureResult a.assetName]) 2 (by decide)
  rw [h]
  simp [loadFailureResult]

/-! ## Claim C5 — profile export/import round trip -/

/-- `alistSet` on a fresh key appends. -/
theorem alistSet_fresh {β : Type} (m : List (String × β)) (k : String)
    (v : β) (h : ∀ e ∈ m, e.1 ≠ k) : alistSet m k v = m ++ [(k, v)] := by
  unfold alistSet
  rw [if_neg]
  simp only [List.any_eq_true, decide_eq_true_eq, not_exists]
  intro e he
  exact h e he.1 he.2

/-- Folding `alistSet` over pairwise-fresh keys (a `TMap` with unique keys
rebuilt by successive `Add`/`SetField` calls) appends the entries in
order. -/
theorem foldl_alistSet_fresh {β γ : Type} (f : String → β → γ) :
    ∀ (l : List (String × β)) (acc : List (String × γ)),
      (∀ kv ∈ l, ∀ e ∈ acc, e.1 ≠ kv.1) →
      (l.map Prod.fst).Nodup →
      l.foldl (fun a kv => alistSet a kv.1 (f kv.1 kv.2)) acc =
        acc ++ l.map (fun kv => (kv.1, f kv.1 kv.2)) := by
  intro l
  induction l with
  | nil =>
    intro acc _ _
    simp
  | cons kv rest ih =>
    intro acc hfresh hnodup
    have hmc : (kv :: rest).map Prod.fst = kv.1 :: rest.map Prod.fst := rfl
    have hnd := List.nodup_cons.mp (hmc ▸ hnodup)
    simp only [List.foldl_cons]
    rw [alistSet_fresh acc kv.1 (f kv.1 kv.2)
      (fun e he => hfresh kv (List.mem_cons_self kv rest) e he)]
    rw [ih (acc ++ [(kv.1, f kv.1 kv.2)]) ?_ hnd.2]
    · simp
    · intro kv' hkv' e he
      rcases List.mem_append.mp he with h1 | h2
      · exact hfresh kv' (List.mem_cons_of_mem kv hkv') e h1
      · have he2 : e = (kv.1, f kv.1 kv.2) := by simpa using h2
        subst he2
        intro heq
        exact hnd.1 (heq ▸ List.mem_map_of_mem Prod.fst hkv')

/-- Exporting a unique-keyed parameter map yields its entries in order,
each value wrapped as a JSON string. -/
theorem exportParams_eq (ps : List (String × String))
    (h : (ps.map Prod.fst).Nodup) :
    ps.foldl (fun acc kvp => alistSet acc kvp.1 (JVal.jstr kvp.2)) [] =
      ps.map (fun kvp => (kvp.1, JVal.jstr kvp.2)) := by
  have := foldl_alistSet_fresh (fun _ v => JVal.jstr v) ps [] (by simp) h
  simpa using this

/-- Importing the exported parameter object restores the parameter map. -/
theorem importParams_eq (ps : List (String × String))
    (h : (ps.map Prod.fst).Nodup) :
    (ps.map (fun kvp => (kvp.1, JVal.jstr kvp.2))).foldl
        (fun acc kv =>
          match kv.2 with
          | .jstr s => alistSet acc kv.1 s
          | _ => acc)
        [] = ps := by
  rw [List.foldl_map]
  have := foldl_alistSet_fresh (fun _ v => v) ps [] (by simp) h
  simpa using this

/-- The exported per-rule object, in closed form. -/
theorem exportRule_shape (rid : String) (ben : Bool)
    (ps : List (String × String)) (h : (ps.map Prod.fst).Nodup) :
    exportRuleToJSON ⟨rid, ben, ps⟩ =
      JVal.jobj
        [("RuleID", JVal.jstr rid), ("Enabled", JVal.jbool ben),
         ("Parameters",
          JVal.jobj (ps.map (fun kvp => (kvp.1, JVal.jstr kvp.2))))] := by
  unfold exportRuleToJSON
  simp only
  rw [exportParams_eq ps h]
  simp [alistSet]

/-- One rule config survives the per-rule export/import round trip. -/
theorem importRule_exportRule (rc : FPipelineGuardianRuleConfig)
    (h : (rc.parameters.map Prod.fst).Nodup) :
    importRuleFromJSON (exportRuleToJSON rc) = some rc := by
  obtain ⟨rid, ben, ps⟩ := rc
  simp only at h
  rw [exportRule_shape rid ben ps h]
  have l1 : ∀ v1 v2 v3 : JVal,
      jlookup [("RuleID", v1), ("Enabled", v2), ("Parameters", v3)]
        "RuleID" = some v1 := fun _ _ _ => rfl
  have l2 : ∀ v1 v2 v3 : JVal,
      jlookup [("RuleID", v1), ("Enabled", v2), ("Parameters", v3)]
        "Enabled" = some v2 := fun _ _ _ => rfl
  have l3 : ∀ v1 v2 v3 : JVal,
      jlookup [("RuleID", v1), ("Enabled", v2), ("Parameters", v3)]
        "Parameters" = some v3 := fun _ _ _ => rfl
  unfold importRuleFromJSON
  simp only [l1, l2, l3, defaultRuleConfig]
  rw [importParams_eq ps h]

/-- The imported `Rules` array of an exported config list restores the list
in order. -/
theorem importRules_array (rcs : List FPipelineGuardianRuleConfig)
    (h : ∀ rc ∈ rcs, (rc.parameters.map Prod.fst).Nodup) :
    ∀ acc : List FPipelineGuardianRuleConfig,
      (rcs.map exportRuleToJSON).foldl
          (fun acc e =>
            match importRuleFromJSON e with
            | some rc => acc ++ [rc]
            | none => acc)
          acc = acc ++ rcs := by
  induction rcs with
  | nil =>
    intro acc
    simp
  | cons rc rest ih =>
    intro acc
    simp only [List.map_cons, List.foldl_cons]
    rw [importRule_exportRule rc (h rc (List.mem_cons_self rc rest))]
    rw [ih (fun rc' hrc' => h rc' (List.mem_cons_of_mem rc hrc')) (acc ++ [rc])]
    simp

/-- C5: importing the document produced by exporting a profile restores the
profile — the same RuleConfig list (hence the same RuleIDs, Enabled flags
and parameter key/value pairs), along with the metadata fields — for any
prior state of the importing profile, given the `TMap` invariant that each
rule's parameter keys are unique. -/
theorem c5_export_import_roundtrip (p target : UPipelineGuardianProfile)
    (h : ∀ rc ∈ p.ruleConfigs, (rc.parameters.map Prod.fst).Nodup) :
    importFromJSON target (exportToJSON p) =
      (true,
       { profileName := p.profileName, profileDescr := p.profileDescr,
         version := p.version, ruleConfigs := p.ruleConfigs }) := by
  have hshape : exportToJSON p =
      JVal.jobj
        [("ProfileName", JVal.jstr p.profileName),
         ("Description", JVal.jstr p.profileDescr),
         ("Version", JVal.jnum p.version),
         ("Rules", JVal.jarr (p.ruleConfigs.map exportRuleToJSON))] := by
    unfold exportToJSON
    simp [alistSet]
  rw [hshape]
  have l1 : ∀ v1 v2 v3 v4 : JVal,
      jlookup [("ProfileName", v1), ("Description", v2), ("Version", v3),
        ("Rules", v4)] "ProfileName" = some v1 := fun _ _ _ _ => rfl
  have l2 : ∀ v1 v2 v3 v4 : JVal,
      jlookup [("ProfileName", v1), ("Description", v2), ("Version", v3),
        ("Rules", v4)] "Description" = some v2 := fun _ _ _ _ => rfl
  have l3 : ∀ v1 v2 v3 v4 : JVal,
      jlookup [("ProfileName", v1), ("Description", v2), ("Version", v3),
        ("Rules", v4)] "Version" = some v3 := fun _ _ _ _ => rfl
  have l4 : ∀ v1 v2 v3 v4 : JVal,
      jlookup [("ProfileName", v1), ("Description", v2), ("Version", v3),
        ("Rules", v4)] "Rules" = some v4 := fun _ _ _ _ => rfl
  unfold importFromJSON
  simp only [l1, l2, l3, l4]
  rw [importRules_array p.ruleConfigs h []]
  simp

/-- C5 witness: the seeded default profile round-trips exactly. -/
theorem c5_witness :
    (∀ rc ∈ defaultProfile.ruleConfigs,
        (rc.parameters.map Prod.fst).Nodup) ∧
      importFromJSON (UPipelineGuardianProfile.mk "" "" 0 [])
          (exportToJSON defaultProfile) = (true, defaultProfile) :=
  ⟨by decide,
   c5_export_import_roundtrip defaultProfile
     (UPipelineGuardianProfile.mk "" "" 0 []) (by decide)⟩

/-! ## Claim C9 — uniqueness-by-RuleID -/

/-- Replacing the first config with a matching RuleID does not change the
RuleID sequence. -/
theorem replaceFirst_map_ruleID (rc : FPipelineGuardianRuleConfig) :
    ∀ l : List FPipelineGuardianRuleConfig,
      (replaceFirstByRuleID l rc).map (fun c => c.ruleID) =
        l.map (fun c => c.ruleID) := by
  intro l
  induction l with
  | nil => rfl
  | cons c rest ih =>
    unfold replaceFirstByRuleID
    by_cases h : c.ruleID = rc.ruleID
    · rw [if_pos h]
      simp [h]
    · rw [if_neg h]
      simp [ih]

/-- The import fold appends exactly the parsed rule entries. -/
theorem importRules_foldl_filterMap :
    ∀ (elems : List JVal) (acc : List FPipelineGuardianRuleConfig),
      elems.foldl
          (fun acc e =>
            match importRuleFromJSON e with
            | some rc => acc ++ [rc]
            | none => acc)
          acc = acc ++ elems.filterMap importRuleFromJSON := by
  intro elems
  induction elems with
  | nil =>
    intro acc
    simp
  | cons e rest ih =>
    intro acc
    simp only [List.foldl_cons, List.filterMap_cons]
    cases h : importRuleFromJSON e with
    | none => exact ih acc
    | some rc => exact (ih (acc ++ [rc])).trans (by simp)

/-- C9 counterexample: importing a document whose `Rules` array repeats a
RuleID yields a profile holding two configs with that RuleID —
`ImportFromJSON` appends without upserting, so uniqueness-by-RuleID is not
an invariant of every mutation. -/
theorem c9_counterexample_import_duplicates :
    ((importFromJSON defaultProfile duplicateRuleDoc).2.ruleConfigs.map
        (fun c => c.ruleID)) = ["SM_Naming", "SM_Naming"] ∧
      ¬((importFromJSON defaultProfile duplicateRuleDoc).2.ruleConfigs.map
          (fun c => c.ruleID)).Nodup := by
  refine ⟨by decide, by decide⟩

/-- C9 amended: uniqueness-by-RuleID holds for the seeded default set and
is preserved by the `SetRuleConfig` upsert, but `ImportFromJSON` appends
the document's entries without dedup — the imported profile is unique by
RuleID only when the document's parsed rule entries carry pairwise-distinct
RuleIDs. -/
theorem c9_amended_uniqueness_by_ruleID (p : UPipelineGuardianProfile)
    (rc : FPipelineGuardianRuleConfig) (target : UPipelineGuardianProfile)
    (fields : List (String × JVal)) (elems : List JVal) :
    ((p.ruleConfigs.map (fun c => c.ruleID)).Nodup →
      ((setRuleConfig p rc).ruleConfigs.map (fun c => c.ruleID)).Nodup) ∧
      (defaultProfile.ruleConfigs.map (fun c => c.ruleID)).Nodup ∧
      (jlookup fields "Rules" = some (.jarr elems) →
        ((elems.filterMap importRuleFromJSON).map
            (fun c => c.ruleID)).Nodup →
        ((importFromJSON target (.jobj fields)).2.ruleConfigs.map
            (fun c => c.ruleID)).Nodup) := by
  refine ⟨?_, by decide, ?_⟩
  · intro h
    unfold setRuleConfig
    by_cases hany : p.ruleConfigs.any (fun c => c.ruleID = rc.ruleID)
    · rw [if_pos hany]
      simpa [replaceFirst_map_ruleID] using h
    · rw [if_neg hany]
      simp only [List.map_append, List.map_cons, List.map_nil]
      rw [List.nodup_append]
      refine ⟨h, List.nodup_singleton _, ?_⟩
      intro x hx hx'
      have hxr : x = rc.ruleID := by simpa using hx'
      subst hxr
      obtain ⟨c, hc, hcid⟩ := List.mem_map.mp hx
      exact hany (List.any_eq_true.mpr ⟨c, hc, by simp [hcid]⟩)
  · intro hlook hnod
    unfold importFromJSON
    simp only [hlook]
    rw [importRules_foldl_filterMap elems []]
    simpa using hnod

/-! ## Claim C6 — fix-all LOD repair -/

/-- C6: the fix-all repair (with the reduction backend available) writes,
for every LOD index ≥ 1 with a valid source model, a reduction setting that
is the clamped LOD0-relative percentage of its target triangle count; the
target count is never below 4 triangles and the written percentage never
above 100% (nor below the 1% floor); the trace contains exactly one mesh
rebuild for the whole batch; and the reported outcome is the full-success
flag iff every recomputed per-LOD reduction is within 5 percentage points
of the target, with one reduction entry per LOD index ≥ 1. -/
theorem c6_fixall_lod_repair (counts : List Int) (prob : List Nat) (T : Rat)
    (nsm : Nat) (build : List (Nat × Rat) → List Int)
    (hprob : prob ≠ []) :
    ((fixAllLODReductions counts prob T nsm true build).1.count
        FixEvent.buildMesh = 1) ∧
      (∀ i pct,
        FixEvent.setReduction i pct ∈
            (fixAllLODReductions counts prob T nsm true build).1 →
          pct = fixAllTargetPercentage (counts.getD 0 0) T i ∧
            1 ≤ i ∧ i < counts.length ∧ i < nsm) ∧
      (∀ (base : Int) (i : Nat),
        4 ≤ fixAllTargetCount base T i ∧
          1 / 100 ≤ fixAllTargetPercentage base T i ∧
            fixAllTargetPercentage base T i ≤ 1) ∧
      (∀ (ok : Bool) (reds : List Rat),
        (fixAllLODReductions counts prob T nsm true build).2 =
            some (ok, reds) →
          reds.length = counts.length - 1 ∧
            (ok = true ↔ ∀ r ∈ reds, |r - T| ≤ 5)) := by
  have hne : prob.isEmpty = false := by
    cases prob with
    | nil => exact absurd rfl hprob
    | cons a l => rfl
  have hfix : fixAllLODReductions counts prob T nsm true build =
      ([FixEvent.modifyMesh] ++
         (fixAllSettings counts T nsm).map
           (fun s => FixEvent.setReduction s.1 s.2) ++
         [FixEvent.buildMesh, FixEvent.markDirty,
          FixEvent.dialog
            ((fixAllReductions counts
                (build (fixAllSettings counts T nsm))).all
              fun r => decide (¬5 < |r - T|))],
       some
         ((fixAllReductions counts
             (build (fixAllSettings counts T nsm))).all
           fun r => decide (¬5 < |r - T|),
          fixAllReductions counts (build (fixAllSettings counts T nsm)))) := by
    unfold fixAllLODReductions
    rw [hne]
    rfl
  rw [hfix]
  refine ⟨?_, ?_, ?_, ?_⟩
  · rw [List.count_append, List.count_append]
    have h1 : ([FixEvent.modifyMesh] : List FixEvent).count
        FixEvent.buildMesh = 0 := by decide
    have h2 : ((fixAllSettings counts T nsm).map
        (fun s => FixEvent.setReduction s.1 s.2)).count
        FixEvent.buildMesh = 0 := by
      rw [List.count_eq_zero]
      intro hmem
      obtain ⟨s, _, he⟩ := List.mem_map.mp hmem
      exact FixEvent.noConfusion he
    have h3 : ∀ b : Bool,
        ([FixEvent.buildMesh, FixEvent.markDirty,
          FixEvent.dialog b] : List FixEvent).count FixEvent.buildMesh =
          1 := by
      intro b
      cases b <;> decide
    rw [h1, h2, h3]
  · intro i pct hmem
    rcases List.mem_append.mp hmem with hmem' | hlast
    · rcases List.mem_append.mp hmem' with hmod | hmap
      · simp at hmod
      · obtain ⟨s, hs, he⟩ := List.mem_map.mp hmap
        obtain ⟨hi, hpct⟩ : s.1 = i ∧ s.2 = pct := by
          injection he with h1 h2
          exact ⟨h1, h2⟩
        obtain ⟨j, hj, hjf⟩ := List.mem_filterMap.mp hs
        by_cases hjn : j < nsm
        · rw [if_pos hjn] at hjf
          have hsj : s = (j, fixAllTargetPercentage (counts.getD 0 0) T j) :=
            by injection hjf with h; exact h.symm
          have hji : j = i := by rw [hsj] at hi; simpa using hi
          subst hji
          have hrange := List.mem_range'_1.mp hj
          refine ⟨?_, hrange.1, by omega, hjn⟩
          rw [← hpct, hsj]
        · rw [if_neg hjn] at hjf
          exact absurd hjf (by simp)
    · simp at hlast
  · intro base i
    refine ⟨le_max_right _ _, ?_, ?_⟩
    · unfold fixAllTargetPercentage clampQ
      split_ifs with h1 h2
      · exact le_refl _
      · norm_num
      · exact not_lt.mp h1
    · unfold fixAllTargetPercentage clampQ
      split_ifs with h1 h2
      · norm_num
      · exact le_refl _
      · exact not_lt.mp h2
  · intro ok reds h
    have hpair : ((fixAllReductions counts
        (build (fixAllSettings counts T nsm))).all
          (fun r => decide (¬5 < |r - T|)) = ok ∧
        fixAllReductions counts (build (fixAllSettings counts T nsm)) =
          reds) := by
      injection h with h'
      injection h' with h1 h2
      exact ⟨h1, h2⟩
    obtain ⟨hok, hreds⟩ := hpair
    subst hreds
    constructor
    · unfold fixAllReductions
      rw [List.length_map, List.length_range']
    · rw [← hok]
      rw [List.all_eq_true]
      constructor
      · intro hall r hr
        have := hall r hr
        have := of_decide_eq_true this
        exact not_lt.mp this
      · intro hall r hr
        exact decide_eq_true (not_lt.mpr (hall r hr))

/-- C6 witness: a two-LOD mesh with one problematic LOD, a 30% target, and
a rebuild achieving exactly the target. -/
theorem c6_witness :
    (([1] : List Nat) ≠ []) ∧
      ((fixAllLODReductions [1000, 900] [1] 30 2 true
            (fun _ => [1000, 700])).1.count FixEvent.buildMesh = 1) ∧
      (∀ i pct,
        FixEvent.setReduction i pct ∈
            (fixAllLODReductions [1000, 900] [1] 30 2 true
              (fun _ => [1000, 700])).1 →
          pct = fixAllTargetPercentage (([1000, 900] : List Int).getD 0 0) 30
              i ∧
            1 ≤ i ∧ i < ([1000, 900] : List Int).length ∧ i < 2) ∧
      (∀ (base : Int) (i : Nat),
        4 ≤ fixAllTargetCount base 30 i ∧
          1 / 100 ≤ fixAllTargetPercentage base 30 i ∧
            fixAllTargetPercentage base 30 i ≤ 1) ∧
      (∀ (ok : Bool) (reds : List Rat),
        (fixAllLODReductions [1000, 900] [1] 30 2 true
              (fun _ => [1000, 700])).2 =
            some (ok, reds) →
          reds.length = ([1000, 900] : List Int).length - 1 ∧
            (ok = true ↔ ∀ r ∈ reds, |r - 30| ≤ 5)) := by
  refine ⟨by decide, ?_⟩
  exact c6_fixall_lod_repair [1000, 900] [1] 30 2 (fun _ => [1000, 700])
    (by decide)

end PipelineGuardian
